import Mathlib

/-!
# Verification of the mcp-server-bfl request lifecycle

Shallow embedding of the `fernforestgames/mcp-server-bfl` MCP server.
The repository contains two evolutionary variants of the same design:

* `src/index.ts` — the current version: one unified `generate_image` tool
  (discriminated on a `model` selector), a `download_image` tool, and the
  `bfl://requests/{id}` and `bfl://images/{id}` resources.
* the earliest variant (per-model tools `generate_image_flux_dev`,
  `generate_image_flux_pro`, `generate_image_flux_pro_ultra`, a
  `get_request_status` tool and an in-memory `activeRequests` registry);
  its definitions live in the `V0` namespace below.

Network effects (the `fetch` calls) are embedded as explicit outcome values
passed to each function: an HTTP response is a status code plus the parsed
JSON body, and a rejected `fetch` promise is a `networkError` constructor.
Repeated polling fetches are an oracle `Nat → _` giving the outcome of the
i-th status fetch.  Thrown JS errors are `Except.error`; the string a JS
template produces from an interpolated error value is modelled by `errText`.
-/

/-- Job status as reported by the provider: `z.enum(["Pending", "Ready", "Error"])`. -/
inductive Status where
  | Pending
  | Ready
  | Error
deriving DecidableEq

/-- The `result` object of a status response: `z.object({ sample: z.string() })`. -/
structure ResultPayload where
  sample : String

/-- `resultResponseSchema`: `{id, status, result?: {sample}, error?: string}`.
`nullish` fields are `Option`s. -/
structure ResultResponse where
  id : String
  status : Status
  result : Option ResultPayload
  error : Option String

/-- The errors thrown by the helper functions of `index.ts`:
non-2xx provider responses, Zod parse failures, rejected fetches, and the
polling-timeout error of `pollUntilComplete`. -/
inductive BFLError where
  | apiError (statusCode : Nat) (body : String)
  | schemaError
  | networkError (msg : String)
  | pollingTimeout (maxAttempts : Nat)

/-- `response.ok` of the WHATWG fetch API: status in the 2xx range. -/
def respOk (statusCode : Nat) : Bool :=
  200 ≤ statusCode && statusCode < 300

/-- Models the string a JS template literal produces from an interpolated
thrown error value (`Error.toString()` for thrown `Error`s; the Zod error
rendering is abstracted to a fixed tag). -/
def errText : BFLError → String
  | BFLError.apiError sc body => "Error: BFL API error (" ++ toString sc ++ "): " ++ body
  | BFLError.schemaError => "Error: ZodError"
  | BFLError.networkError m => m
  | BFLError.pollingTimeout n => "Error: Polling timeout after " ++ toString n ++ " attempts"

/-- Models JS template interpolation of a `string | null | undefined` value;
both nullish values collapse to `none` in this embedding. -/
def jsNullishStr : Option String → String
  | some s => s
  | none => "null"

/-- Models the JS expression `result.result?.sample` in a template literal
(`undefined` when the `result` object is absent). -/
def sampleInterp : Option ResultPayload → String
  | some p => p.sample
  | none => "undefined"

/-- A `{ type: "text", text }` content block of an MCP tool response. -/
inductive ToolContent where
  | text (s : String)

/-- The value a tool handler returns: `{ content: [...] }`. -/
structure ToolResult where
  content : List ToolContent

/-- A JSON value appearing as a field of the generation-parameter object.
Only the shapes the schemas admit are needed here. -/
inductive ParamValue where
  | str (s : String)
  | num (n : Int)
  | bool (b : Bool)
deriving DecidableEq

/-! ## Provider client of `src/index.ts` -/

/-- The JSON body of a submit (`POST`) response, before Zod validation:
each expected field is either a string or absent/not-a-string (`none`). -/
structure SubmitBodyJson where
  id : Option String
  polling_url : Option String

/-- `imageGenerationResponseSchema = z.object({ id: z.string(), polling_url: z.string() })`. -/
structure ImageGenerationResponse where
  id : String
  polling_url : String

/-- `imageGenerationResponseSchema.parse`: both `id` and `polling_url` must be
present strings; anything else is a Zod failure (`none`). -/
def imageGenerationResponseParse (j : SubmitBodyJson) : Option ImageGenerationResponse :=
  match j.id, j.polling_url with
  | some i, some u => some ⟨i, u⟩
  | _, _ => none

/-- Outcome of the `fetch` in `makeBFLRequest`: a rejected promise, or a
response with its status code, error body text, and parsed JSON body. -/
inductive SubmitOutcome where
  | networkError (msg : String)
  | response (statusCode : Nat) (bodyText : String) (json : SubmitBodyJson)

/-- `makeBFLRequest` (current version): POSTs the payload; throws
`BFL API error (status): body` on a non-2xx response; otherwise parses the
body with `imageGenerationResponseSchema`. -/
def makeBFLRequest (o : SubmitOutcome) : Except BFLError ImageGenerationResponse :=
  match o with
  | SubmitOutcome.networkError m => Except.error (BFLError.networkError m)
  | SubmitOutcome.response sc body j =>
    if respOk sc then
      match imageGenerationResponseParse j with
      | some r => Except.ok r
      | none => Except.error BFLError.schemaError
    else
      Except.error (BFLError.apiError sc body)

/-- Outcome of a status-fetch `fetch` (`getResult` / `getResultById`):
`json` is the body as parsed by `resultResponseSchema` (`none` when the body
does not match the schema, i.e. `parse` throws). -/
inductive FetchOutcome where
  | networkError (msg : String)
  | response (statusCode : Nat) (bodyText : String) (json : Option ResultResponse)

/-- `getResult(pollingUrl)`: GET on the polling URL; throws on non-2xx;
otherwise `resultResponseSchema.parse`. -/
def getResult (o : FetchOutcome) : Except BFLError ResultResponse :=
  match o with
  | FetchOutcome.networkError m => Except.error (BFLError.networkError m)
  | FetchOutcome.response sc body j =>
    if respOk sc then
      match j with
      | some r => Except.ok r
      | none => Except.error BFLError.schemaError
    else
      Except.error (BFLError.apiError sc body)

/-- `getResultById(requestId)`: GET on `/v1/get_result?id=...`; same handling
as `getResult`. -/
def getResultById (o : FetchOutcome) : Except BFLError ResultResponse :=
  match o with
  | FetchOutcome.networkError m => Except.error (BFLError.networkError m)
  | FetchOutcome.response sc body j =>
    if respOk sc then
      match j with
      | some r => Except.ok r
      | none => Except.error BFLError.schemaError
    else
      Except.error (BFLError.apiError sc body)

/-- `Bool`-valued success test for an `Except` value. -/
def exceptOk {ε α : Type} : Except ε α → Bool
  | Except.ok _ => true
  | Except.error _ => false

/-! ## Poller (`pollUntilComplete`) -/

/-- Observable trace of one `pollUntilComplete` run: its outcome, the number
of status fetches performed, and the number of `setTimeout(intervalMs)`
sleeps awaited. -/
structure PollTrace where
  result : Except BFLError ResultResponse
  fetches : Nat
  sleeps : Nat

/-- The `for (let i = 0; i < maxAttempts; i++)` loop of `pollUntilComplete`,
with `fetch i` the outcome of the i-th `getResult` call: each iteration
fetches once, returns on a terminal status, propagates a thrown fetch error,
and otherwise sleeps and continues; when the attempt budget is exhausted the
polling-timeout error is thrown. -/
def pollAux (fetch : Nat → Except BFLError ResultResponse) (maxAttempts : Nat) :
    Nat → Nat → PollTrace
  | _, 0 => ⟨Except.error (BFLError.pollingTimeout maxAttempts), 0, 0⟩
  | i, rem + 1 =>
    match fetch i with
    | Except.error e => ⟨Except.error e, 1, 0⟩
    | Except.ok r =>
      if r.status = Status.Ready ∨ r.status = Status.Error then
        ⟨Except.ok r, 1, 0⟩
      else
        let rest := pollAux fetch maxAttempts (i + 1) rem
        ⟨rest.result, rest.fetches + 1, rest.sleeps + 1⟩

/-- `pollUntilComplete(pollingUrl, maxAttempts, intervalMs)`; `fetch i` is the
result of the i-th `getResult(pollingUrl)` call.  `intervalMs` only sets the
duration of each sleep, which the trace counts. -/
def pollUntilComplete (fetch : Nat → Except BFLError ResultResponse)
    (maxAttempts intervalMs : Nat) : PollTrace :=
  pollAux fetch maxAttempts 0 maxAttempts

/-- Default `maxAttempts` of `pollUntilComplete`. -/
def defaultMaxAttempts : Nat := 60

/-- Default `intervalMs` of `pollUntilComplete`. -/
def defaultIntervalMs : Nat := 2000

/-- `pollUntilComplete(pollingUrl)` with its default parameters. -/
def pollUntilCompleteDefault (fetch : Nat → Except BFLError ResultResponse) : PollTrace :=
  pollUntilComplete fetch defaultMaxAttempts defaultIntervalMs

/-! ## The `generate_image` tool of `src/index.ts` -/

/-- `MODEL_ENDPOINTS`, the `Record<string, string>` mapping model selectors to
provider endpoint paths, in declaration order. -/
def MODEL_ENDPOINTS : List (String × String) :=
  [("flux-dev", "/v1/flux-dev"),
   ("flux-pro", "/v1/flux-pro-1.1"),
   ("flux-pro-ultra", "/v1/flux-pro-1.1-ultra"),
   ("flux-kontext-pro", "/v1/flux-kontext-pro"),
   ("flux-kontext-max", "/v1/flux-kontext-max")]

/-- The rest-spread `const { model: _, wait: __, ...requestBody } = params`:
the validated parameter object minus the `model` and `wait` keys. -/
def stripOrchestrationFields (params : List (String × ParamValue)) :
    List (String × ParamValue) :=
  params.filter fun kv => kv.fst != "model" && kv.fst != "wait"

/-- The invalid-model failure text, listing `Object.keys(MODEL_ENDPOINTS)`
joined with `", "`. -/
def invalidModelText (model : String) : String :=
  "Invalid model: " ++ model ++ ". Valid options: " ++
    String.intercalate ", " (MODEL_ENDPOINTS.map Prod.fst)

/-- The `wait=false` response text of `generate_image`. -/
def submittedText (id model : String) : String :=
  "Image generation request submitted.\n\nRequest ID: " ++ id ++ "\nModel: " ++ model ++
    "\n\nUse the bfl://requests/" ++ id ++ " resource to check status."

/-- `Image generation failed: ${result.error}`. -/
def generationFailedText (e : Option String) : String :=
  "Image generation failed: " ++ jsNullishStr e

/-- The success response text of `generate_image`. -/
def successText (id model sample : String) : String :=
  "Image generated successfully!\n\nRequest ID: " ++ id ++ "\nModel: " ++ model ++
    "\nImage URL: " ++ sample ++
    "\n(Note: the image URL is only valid for 10 minutes.)\n\nYou can also use the bfl://images/" ++
    id ++ " resource to view the image directly."

/-- The network environment one `generate_image` invocation runs against: the
outcome of the submit POST, and the outcomes of the successive polling
fetches on the returned `polling_url`. -/
structure GenEnv where
  submitOutcome : SubmitOutcome
  pollFetch : Nat → Except BFLError ResultResponse

/-- Observable trace of one `generate_image` invocation.  `result` is `ok`
when the handler returns (tools render failures as text) and `error` if it
were to throw to the transport.  `submitted` records the endpoint and body of
the submit POST when one is attempted, `pollFetches` the number of status
fetches performed. -/
structure GenTrace where
  result : Except String ToolResult
  submitted : Option (String × List (String × ParamValue))
  pollFetches : Nat

/-- The `generate_image` tool handler: resolve the model, strip `model` and
`wait`, submit, optionally poll to completion, and render every caught error
as a text content block. -/
def generate_image (env : GenEnv) (model : String) (wait : Bool)
    (params : List (String × ParamValue)) : GenTrace :=
  match MODEL_ENDPOINTS.lookup model with
  | none =>
    ⟨Except.ok ⟨[ToolContent.text (invalidModelText model)]⟩, none, 0⟩
  | some endpoint =>
    match makeBFLRequest env.submitOutcome with
    | Except.error e =>
      ⟨Except.ok ⟨[ToolContent.text ("Failed to generate image: " ++ errText e)]⟩,
        some (endpoint, stripOrchestrationFields params), 0⟩
    | Except.ok initResponse =>
      if wait = false then
        ⟨Except.ok ⟨[ToolContent.text (submittedText initResponse.id model)]⟩,
          some (endpoint, stripOrchestrationFields params), 0⟩
      else
        match (pollUntilCompleteDefault env.pollFetch).result with
        | Except.error e =>
          ⟨Except.ok ⟨[ToolContent.text ("Failed to generate image: " ++ errText e)]⟩,
            some (endpoint, stripOrchestrationFields params),
            (pollUntilCompleteDefault env.pollFetch).fetches⟩
        | Except.ok result =>
          if result.status = Status.Error then
            ⟨Except.ok ⟨[ToolContent.text (generationFailedText result.error)]⟩,
              some (endpoint, stripOrchestrationFields params),
              (pollUntilCompleteDefault env.pollFetch).fetches⟩
          else
            ⟨Except.ok ⟨[ToolContent.text
                (successText initResponse.id model (sampleInterp result.result))]⟩,
              some (endpoint, stripOrchestrationFields params),
              (pollUntilCompleteDefault env.pollFetch).fetches⟩

/-! ## The `download_image` tool of `src/index.ts` -/

/-- Outcome of the `fetch(result.result.sample)` artifact transfer: a rejected
promise, or a response with status code, status text, `content-type` header,
and body bytes (`none` models a null `response.body`). -/
inductive ImageFetchOutcome where
  | networkError (msg : String)
  | response (statusCode : Nat) (statusText : String)
      (contentType : Option String) (body : Option String)

/-- The JS truthiness test `result.result?.sample`: the sample URL when the
`result` object is present and the sample is a non-empty string. -/
def sampleUrl (r : ResultResponse) : Option String :=
  match r.result with
  | some p => if p.sample = "" then none else some p.sample
  | none => none

/-- Observable trace of one `download_image` invocation: the tool response,
whether the artifact `fetch` was performed, and the destination path and
bytes written when the pipeline to disk ran. -/
structure DownloadTrace where
  result : Except String ToolResult
  imageFetched : Bool
  wrote : Option (String × String)

/-- The `download_image` tool handler: fetch the job status by id, gate on
the status and the presence of a sample URL, then fetch the artifact and
stream it to `file_path`; every caught error becomes a text content block. -/
def download_image (statusOut : FetchOutcome) (imgOut : ImageFetchOutcome)
    (request_id file_path : String) : DownloadTrace :=
  match getResultById statusOut with
  | Except.error e =>
    ⟨Except.ok ⟨[ToolContent.text ("Failed to download image: " ++ errText e)]⟩, false, none⟩
  | Except.ok result =>
    if result.status = Status.Error then
      ⟨Except.ok ⟨[ToolContent.text (generationFailedText result.error)]⟩, false, none⟩
    else if result.status = Status.Pending then
      ⟨Except.ok ⟨[ToolContent.text
          "Image generation is still pending. Please wait for it to complete."]⟩, false, none⟩
    else if (sampleUrl result).isNone then
      ⟨Except.ok ⟨[ToolContent.text "No image URL found in result"]⟩, false, none⟩
    else
      match imgOut with
      | ImageFetchOutcome.networkError m =>
        ⟨Except.ok ⟨[ToolContent.text ("Failed to download image: " ++ m)]⟩, true, none⟩
      | ImageFetchOutcome.response sc st _ct body =>
        if respOk sc = false then
          ⟨Except.ok ⟨[ToolContent.text
              ("Failed to fetch image: " ++ toString sc ++ " " ++ st)]⟩, true, none⟩
        else
          match body with
          | none => ⟨Except.ok ⟨[ToolContent.text "No response body available"]⟩, true, none⟩
          | some bytes =>
            ⟨Except.ok ⟨[ToolContent.text
                ("Image downloaded successfully to " ++ file_path)]⟩,
              true, some (file_path, bytes)⟩

/-! ## The resources of `src/index.ts` -/

/-- The `details` object the `request_details` resource serializes
(`JSON.stringify` of `{id, status, result: result.result?.sample, error}`;
the JSON rendering itself is abstracted to the record). -/
structure RequestDetails where
  id : String
  status : Status
  result : Option String
  error : Option String

/-- Builds the `details` object from a status response. -/
def detailsOf (r : ResultResponse) : RequestDetails :=
  ⟨r.id, r.status, r.result.map ResultPayload.sample, r.error⟩

/-- The `bfl://requests/{requestId}` resource handler: returns the details
content on success and rethrows any caught error (a protocol-level failure,
`Except.error`). -/
def request_details_read (o : FetchOutcome) (uriHref : String) :
    Except String (String × RequestDetails) :=
  match getResultById o with
  | Except.ok result => Except.ok (uriHref, detailsOf result)
  | Except.error e => Except.error ("Failed to fetch request details: " ++ errText e)

/-- The content-type header fallback of the image resource (a missing or
empty header falls back to the generic `image/jpeg` type). -/
def mimeTypeOf : Option String → String
  | some c => if c = "" then "image/jpeg" else c
  | none => "image/jpeg"

/-- `arrayBuffer()` of the artifact response: its body bytes, empty for a
null body.  The base64 transport encoding of the blob is abstracted (the
`blob` field holds the raw bytes). -/
def bytesOf : Option String → String
  | some b => b
  | none => ""

/-- A binary resource content block: `{uri, mimeType, blob}`. -/
structure ImageContent where
  uri : String
  mimeType : String
  blob : String

/-- The `bfl://images/{requestId}` resource handler: fetch the status, gate on
terminal readiness and sample presence, fetch the artifact and return it
inline; every caught error is rethrown as a protocol-level failure. -/
def image_read (statusOut : FetchOutcome) (imgOut : ImageFetchOutcome)
    (uriHref : String) : Except String ImageContent :=
  match getResultById statusOut with
  | Except.error e => Except.error ("Failed to download image: " ++ errText e)
  | Except.ok result =>
    if result.status = Status.Error then
      Except.error ("Failed to download image: Error: " ++ generationFailedText result.error)
    else if result.status = Status.Pending then
      Except.error "Failed to download image: Error: Image generation is still pending"
    else
      match sampleUrl result with
      | none => Except.error "Failed to download image: Error: No image URL found in result"
      | some _ =>
        match imgOut with
        | ImageFetchOutcome.networkError m =>
          Except.error ("Failed to download image: " ++ m)
        | ImageFetchOutcome.response sc st ct body =>
          if respOk sc = false then
            Except.error ("Failed to download image: Error: Failed to fetch image: " ++
              toString sc ++ " " ++ st)
          else
            Except.ok ⟨uriHref, mimeTypeOf ct, bytesOf body⟩

/-! ## The earliest variant (per-model tools and the `activeRequests` registry) -/

namespace V0

/-- The string stored in the status field of a registry entry for each status value
(the source stores the status enum string in a `status: string` field). -/
def statusStr : Status → String
  | Status.Pending => "Pending"
  | Status.Ready => "Ready"
  | Status.Error => "Error"

/-- One entry of the `activeRequests` map.  `createdAt` models the `Date`
timestamp as an abstract tick. -/
structure RequestEntry where
  id : String
  model : String
  prompt : String
  status : String
  result : Option String
  error : Option String
  createdAt : Nat

/-- Outcome of the `fetch` in this variant of `getResult`: the JSON body is
cast (`as ResultResponse`), never validated, so a 2xx response always carries
a response value. -/
inductive FetchOutcome where
  | networkError (msg : String)
  | response (statusCode : Nat) (bodyText : String) (json : ResultResponse)

/-- This variant of `getResult(requestId)`: GET on `/v1/get_result?id=...`;
throws on non-2xx; otherwise returns the body cast unchecked. -/
def getResult (o : FetchOutcome) : Except BFLError ResultResponse :=
  match o with
  | FetchOutcome.networkError m => Except.error (BFLError.networkError m)
  | FetchOutcome.response sc body j =>
    if respOk sc then Except.ok j
    else Except.error (BFLError.apiError sc body)

/-- The registry-update statements of the `get_request_status` handler:
`request.status = result.status` unconditionally, then the `result` field on
`Ready` and the `error` field on `Error`. -/
def updateEntry (e : RequestEntry) (r : ResultResponse) : RequestEntry :=
  let e1 : RequestEntry :=
    ⟨e.id, e.model, e.prompt, statusStr r.status, e.result, e.error, e.createdAt⟩
  if r.status = Status.Ready then
    ⟨e1.id, e1.model, e1.prompt, e1.status, r.result.map ResultPayload.sample,
      e1.error, e1.createdAt⟩
  else if r.status = Status.Error then
    ⟨e1.id, e1.model, e1.prompt, e1.status, e1.result, r.error, e1.createdAt⟩
  else e1

/-- The response text composed by `get_request_status`. -/
def statusText (requestId : String) (result : ResultResponse) : String :=
  let base := "Request ID: " ++ requestId ++ "\nStatus: " ++ statusStr result.status
  if result.status = Status.Ready ∧ result.result.isSome then
    base ++ "\nImage URL: " ++ sampleInterp result.result ++
      "\n\nNote: URL is valid for 10 minutes."
  else if result.status = Status.Error then
    base ++ "\nError: " ++ jsNullishStr result.error
  else base

/-- The `get_request_status` tool handler over the `activeRequests` registry
(an association list keyed by request id, as the `Map` is): fetch the current
status from the provider; when the id is known locally, overwrite the entry
from the fetched response; render fetch failures as text.  Returns the
updated registry and the tool response. -/
def get_request_status (registry : List (String × RequestEntry)) (requestId : String)
    (fetchOut : FetchOutcome) :
    List (String × RequestEntry) × Except String ToolResult :=
  match getResult fetchOut with
  | Except.error e =>
    (registry, Except.ok ⟨[ToolContent.text ("Failed to get status: " ++ errText e)]⟩)
  | Except.ok result =>
    let registry2 :=
      if (registry.lookup requestId).isSome then
        registry.map fun kv =>
          if kv.fst = requestId then (kv.fst, updateEntry kv.snd result) else kv
      else registry
    (registry2, Except.ok ⟨[ToolContent.text (statusText requestId result)]⟩)

/-- `...(x && { x })`: the conditional spread of an optional string-valued
field — included only when defined and truthy (non-empty). -/
def truthyStrField (key : String) (o : Option String) : List (String × ParamValue) :=
  match o with
  | some s => if s != "" then [(key, ParamValue.str s)] else []
  | none => []

/-- `...(x && { x })`: the conditional spread of an optional number-valued
field — included only when defined and truthy (non-zero). -/
def truthyNumField (key : String) (o : Option Int) : List (String × ParamValue) :=
  match o with
  | some n => if n != 0 then [(key, ParamValue.num n)] else []
  | none => []

/-- `...(x !== undefined && { x })`: the conditional spread used for
`safety_tolerance` — included whenever defined, zero included. -/
def definedNumField (key : String) (o : Option Int) : List (String × ParamValue) :=
  match o with
  | some n => [(key, ParamValue.num n)]
  | none => []

/-- The validated arguments of `generate_image_flux_dev` (and, identically,
`generate_image_flux_pro`).  The `aspect` field models the aspect-ratio
parameter of the source. -/
structure FluxDevArgs where
  prompt : String
  aspect : Option String
  width : Option Int
  height : Option Int
  num_images : Option Int
  safety_tolerance : Option Int

/-- The `requestBody` object built by the `generate_image_flux_dev` handler
(the `generate_image_flux_pro` handler builds the identical object): `prompt`
plus the conditional spreads, in source order. -/
def fluxDevRequestBody (a : FluxDevArgs) : List (String × ParamValue) :=
  [("prompt", ParamValue.str a.prompt)]
    ++ truthyStrField "aspect_ratio" a.aspect
    ++ truthyNumField "width" a.width
    ++ truthyNumField "height" a.height
    ++ truthyNumField "num_images" a.num_images
    ++ definedNumField "safety_tolerance" a.safety_tolerance

/-- The validated arguments of `generate_image_flux_pro_ultra` (its schema
has no `num_images`). -/
structure FluxProUltraArgs where
  prompt : String
  aspect : Option String
  width : Option Int
  height : Option Int
  safety_tolerance : Option Int

/-- The `requestBody` object built by the `generate_image_flux_pro_ultra`
handler. -/
def fluxProUltraRequestBody (a : FluxProUltraArgs) : List (String × ParamValue) :=
  [("prompt", ParamValue.str a.prompt)]
    ++ truthyStrField "aspect_ratio" a.aspect
    ++ truthyNumField "width" a.width
    ++ truthyNumField "height" a.height
    ++ definedNumField "safety_tolerance" a.safety_tolerance

end V0

/-! ## Helper lemmas -/

/-- A polling run whose every remaining fetch is a `Pending` success exhausts
the attempt budget: it times out after `rem` fetches and `rem` sleeps. -/
lemma pollAux_all_pending (fetch : Nat → Except BFLError ResultResponse) (ma : Nat) :
    ∀ rem i,
      (∀ j, j < rem → ∃ r, fetch (i + j) = Except.ok r ∧ r.status = Status.Pending) →
      pollAux fetch ma i rem = ⟨Except.error (BFLError.pollingTimeout ma), rem, rem⟩ := by
  intro rem
  induction rem with
  | zero => intro i _; rfl
  | succ n ih =>
    intro i h
    obtain ⟨r, hr, hp⟩ := h 0 (Nat.succ_pos n)
    have hr0 : fetch i = Except.ok r := by simpa using hr
    have ih2 := ih (i + 1) (fun j hj => by
      obtain ⟨r2, hr2, hp2⟩ := h (j + 1) (Nat.succ_lt_succ hj)
      refine ⟨r2, ?_, hp2⟩
      have e2 : i + 1 + j = i + (j + 1) := by omega
      rw [e2]
      exact hr2)
    simp [pollAux, hr0, hp, ih2]

/-- If the first `k` fetches are `Pending` successes and the k-th fetch
throws, the polling run stops there: the error propagates, after `k + 1`
fetches and `k` sleeps. -/
lemma pollAux_prefix_error (fetch : Nat → Except BFLError ResultResponse) (ma : Nat) :
    ∀ k i rem e, k < rem →
      (∀ j, j < k → ∃ r, fetch (i + j) = Except.ok r ∧ r.status = Status.Pending) →
      fetch (i + k) = Except.error e →
      pollAux fetch ma i rem = ⟨Except.error e, k + 1, k⟩ := by
  intro k
  induction k with
  | zero =>
    intro i rem e hlt _ hf
    obtain ⟨rem2, rfl⟩ : ∃ m, rem = m + 1 := ⟨rem - 1, by omega⟩
    have hf0 : fetch i = Except.error e := by simpa using hf
    simp [pollAux, hf0]
  | succ n ih =>
    intro i rem e hlt hpre hf
    obtain ⟨rem2, rfl⟩ : ∃ m, rem = m + 1 := ⟨rem - 1, by omega⟩
    obtain ⟨r, hr, hp⟩ := hpre 0 (Nat.succ_pos n)
    have hr0 : fetch i = Except.ok r := by simpa using hr
    have ih2 := ih (i + 1) rem2 e (by omega)
      (fun j hj => by
        obtain ⟨r2, hr2, hp2⟩ := hpre (j + 1) (by omega)
        refine ⟨r2, ?_, hp2⟩
        have e2 : i + 1 + j = i + (j + 1) := by omega
        rw [e2]
        exact hr2)
      (by
        have e3 : i + 1 + n = i + (n + 1) := by omega
        rw [e3]
        exact hf)
    simp [pollAux, hr0, hp, ih2]

/-- If the first `k` fetches are `Pending` successes and the k-th fetch
returns a terminal status, the polling run returns that result after `k + 1`
fetches and `k` sleeps. -/
lemma pollAux_prefix_terminal (fetch : Nat → Except BFLError ResultResponse) (ma : Nat) :
    ∀ k i rem r, k < rem →
      (∀ j, j < k → ∃ r2, fetch (i + j) = Except.ok r2 ∧ r2.status = Status.Pending) →
      fetch (i + k) = Except.ok r →
      (r.status = Status.Ready ∨ r.status = Status.Error) →
      pollAux fetch ma i rem = ⟨Except.ok r, k + 1, k⟩ := by
  intro k
  induction k with
  | zero =>
    intro i rem r hlt _ hf ht
    obtain ⟨rem2, rfl⟩ : ∃ m, rem = m + 1 := ⟨rem - 1, by omega⟩
    have hf0 : fetch i = Except.ok r := by simpa using hf
    simp [pollAux, hf0, ht]
  | succ n ih =>
    intro i rem r hlt hpre hf ht
    obtain ⟨rem2, rfl⟩ : ∃ m, rem = m + 1 := ⟨rem - 1, by omega⟩
    obtain ⟨r0, hr, hp⟩ := hpre 0 (Nat.succ_pos n)
    have hr0 : fetch i = Except.ok r0 := by simpa using hr
    have ih2 := ih (i + 1) rem2 r (by omega)
      (fun j hj => by
        obtain ⟨r2, hr2, hp2⟩ := hpre (j + 1) (by omega)
        refine ⟨r2, ?_, hp2⟩
        have e2 : i + 1 + j = i + (j + 1) := by omega
        rw [e2]
        exact hr2)
      (by
        have e3 : i + 1 + n = i + (n + 1) := by omega
        rw [e3]
        exact hf)
      ht
    simp [pollAux, hr0, hp, ih2]

/-- Updating, in place, every entry of an association list whose key matches
updates what `lookup` finds for that key. -/
lemma lookup_map_update {β : Type} (rid : String) (f : β → β) :
    ∀ (l : List (String × β)) (e : β), l.lookup rid = some e →
      (l.map fun kv => if kv.fst = rid then (kv.fst, f kv.snd) else kv).lookup rid =
        some (f e) := by
  intro l
  induction l with
  | nil => intro e h; cases h
  | cons kv t ih =>
    intro e h
    rcases kv with ⟨k, v⟩
    by_cases hk : rid = k
    · subst hk
      rw [List.lookup_cons] at h
      simp only [beq_self_eq_true, Option.some.injEq] at h
      simp [List.lookup_cons, h]
    · have hk2 : ¬ k = rid := fun hh => hk hh.symm
      rw [List.lookup_cons] at h
      simp only [beq_false_of_ne hk] at h
      simp only [List.map_cons, hk2, if_false, ite_false, if_neg hk2]
      rw [List.lookup_cons]
      simp only [beq_false_of_ne hk]
      exact ih e h

/-- `lookup` on a filtered association list agrees with `lookup` on the
original whenever the key itself satisfies the filter applied to keys. -/
lemma lookup_filter_keep (p : String → Bool) (k : String) (hp : p k = true) :
    ∀ l : List (String × ParamValue),
      (l.filter fun kv => p kv.fst).lookup k = l.lookup k := by
  intro l
  induction l with
  | nil => rfl
  | cons kv t ih =>
    rcases kv with ⟨k2, v⟩
    by_cases hk : k = k2
    · subst hk
      simp [List.filter_cons, List.lookup_cons, hp, ih]
    · by_cases hkeep : p k2 = true
      · simp [List.filter_cons, List.lookup_cons, hkeep, beq_false_of_ne hk, ih]
      · simp only [Bool.not_eq_true] at hkeep
        simp [List.filter_cons, List.lookup_cons, hkeep, beq_false_of_ne hk, ih]

/-- `lookup` of a key every filtered-out entry carries finds nothing in the
filtered list. -/
lemma lookup_filter_drop (p : String → Bool) (k : String) (hp : p k = false) :
    ∀ l : List (String × ParamValue),
      (l.filter fun kv => p kv.fst).lookup k = none := by
  intro l
  induction l with
  | nil => rfl
  | cons kv t ih =>
    rcases kv with ⟨k2, v⟩
    by_cases hk : k = k2
    · subst hk
      simp [List.filter_cons, hp, ih]
    · by_cases hkeep : p k2 = true
      · simp [List.filter_cons, List.lookup_cons, hkeep, beq_false_of_ne hk, ih]
      · simp only [Bool.not_eq_true] at hkeep
        simp [List.filter_cons, hkeep, ih]

/-- Skipping a leading segment of an association list whose keys all differ
from the looked-up key. -/
lemma lookup_append_skip (k : String) (l1 l2 : List (String × ParamValue))
    (h : ∀ kv, kv ∈ l1 → ¬ kv.fst = k) :
    (l1 ++ l2).lookup k = l2.lookup k := by
  induction l1 with
  | nil => rfl
  | cons kv t ih =>
    rcases kv with ⟨k2, v⟩
    have hk : ¬ k = k2 := fun hh => h (k2, v) (List.mem_cons_self _ _) hh.symm
    rw [List.cons_append, List.lookup_cons]
    simp only [beq_false_of_ne hk]
    exact ih fun kv hkv => h kv (List.mem_cons_of_mem _ hkv)

/-- Every entry a truthy-string conditional spread contributes carries its
own key. -/
lemma mem_truthyStrField (key : String) (o : Option String) :
    ∀ kv, kv ∈ V0.truthyStrField key o → kv.fst = key := by
  intro kv hkv
  rcases o with _ | s
  · cases hkv
  · dsimp [V0.truthyStrField] at hkv
    by_cases hs : (s != "") = true
    · rw [if_pos hs] at hkv
      simp only [List.mem_singleton] at hkv
      rw [hkv]
    · rw [if_neg hs] at hkv
      cases hkv

/-- Every entry a truthy-number conditional spread contributes carries its
own key. -/
lemma mem_truthyNumField (key : String) (o : Option Int) :
    ∀ kv, kv ∈ V0.truthyNumField key o → kv.fst = key := by
  intro kv hkv
  rcases o with _ | n
  · cases hkv
  · dsimp [V0.truthyNumField] at hkv
    by_cases hn : (n != 0) = true
    · rw [if_pos hn] at hkv
      simp only [List.mem_singleton] at hkv
      rw [hkv]
    · rw [if_neg hn] at hkv
      cases hkv

/-- Every entry a defined-number conditional spread contributes carries its
own key. -/
lemma mem_definedNumField (key : String) (o : Option Int) :
    ∀ kv, kv ∈ V0.definedNumField key o → kv.fst = key := by
  intro kv hkv
  rcases o with _ | n
  · cases hkv
  · simp only [V0.definedNumField, List.mem_singleton] at hkv
    rw [hkv]

/-- Looking a different key up past the single `prompt` entry. -/
lemma skip_promptHead (k : String) (hne : ¬ "prompt" = k) (p : String)
    (rest : List (String × ParamValue)) :
    ([("prompt", ParamValue.str p)] ++ rest).lookup k = rest.lookup k :=
  lookup_append_skip k _ rest fun kv hkv => by
    simp only [List.mem_singleton] at hkv
    rw [hkv]
    exact hne

/-- Looking a different key up past a truthy-string conditional spread. -/
lemma skip_truthyStrField (k key : String) (hne : ¬ key = k) (o : Option String)
    (rest : List (String × ParamValue)) :
    (V0.truthyStrField key o ++ rest).lookup k = rest.lookup k :=
  lookup_append_skip k _ rest fun kv hkv => by
    rw [mem_truthyStrField key o kv hkv]
    exact hne

/-- Looking a different key up past a truthy-number conditional spread. -/
lemma skip_truthyNumField (k key : String) (hne : ¬ key = k) (o : Option Int)
    (rest : List (String × ParamValue)) :
    (V0.truthyNumField key o ++ rest).lookup k = rest.lookup k :=
  lookup_append_skip k _ rest fun kv hkv => by
    rw [mem_truthyNumField key o kv hkv]
    exact hne

/-- Looking a different key up past a defined-number conditional spread. -/
lemma skip_definedNumField (k key : String) (hne : ¬ key = k) (o : Option Int)
    (rest : List (String × ParamValue)) :
    (V0.definedNumField key o ++ rest).lookup k = rest.lookup k :=
  lookup_append_skip k _ rest fun kv hkv => by
    rw [mem_definedNumField key o kv hkv]
    exact hne

/-- `lookup` finds nothing in a list whose keys all differ from the key. -/
lemma lookup_none_of_keys_ne (k : String) (l : List (String × ParamValue))
    (h : ∀ kv, kv ∈ l → ¬ kv.fst = k) : l.lookup k = none := by
  have h2 := lookup_append_skip k l [] h
  simpa using h2

/-- Looking a different key up in a lone defined-number conditional spread. -/
lemma lookup_definedNumField_ne (k key : String) (hne : ¬ key = k) (o : Option Int) :
    (V0.definedNumField key o).lookup k = none :=
  lookup_none_of_keys_ne k _ fun kv hkv => by
    rw [mem_definedNumField key o kv hkv]
    exact hne

/-! ## Claims -/

/-- C1: against a status sequence `[Pending, Pending, Ready]`,
`pollUntilComplete` with its defaults (`maxAttempts = 60`,
`intervalMs = 2000`) returns the `Ready` result after exactly 3 status
fetches and 2 inter-attempt delays; against an all-`Pending` sequence of
length at least `maxAttempts`, it fails with the polling-timeout error after
exactly `maxAttempts` status fetches. -/
theorem pollUntilComplete_terminal_and_timeout :
    (∀ (fetch : Nat → Except BFLError ResultResponse) (r0 r1 r2 : ResultResponse),
      fetch 0 = Except.ok r0 → r0.status = Status.Pending →
      fetch 1 = Except.ok r1 → r1.status = Status.Pending →
      fetch 2 = Except.ok r2 → r2.status = Status.Ready →
      pollUntilCompleteDefault fetch = ⟨Except.ok r2, 3, 2⟩) ∧
    (∀ (fetch : Nat → Except BFLError ResultResponse) (ma ivl : Nat),
      (∀ i, i < ma → ∃ r, fetch i = Except.ok r ∧ r.status = Status.Pending) →
      pollUntilComplete fetch ma ivl =
        ⟨Except.error (BFLError.pollingTimeout ma), ma, ma⟩) := by
  constructor
  · intro fetch r0 r1 r2 h0 hp0 h1 hp1 h2 hp2
    have key := pollAux_prefix_terminal fetch defaultMaxAttempts 2 0 defaultMaxAttempts r2
      (by decide)
      (fun j hj => by
        rcases j with _ | _ | j
        · exact ⟨r0, by simpa using h0, hp0⟩
        · exact ⟨r1, by simpa using h1, hp1⟩
        · exact absurd hj (by omega))
      (by simpa using h2)
      (Or.inl hp2)
    simpa [pollUntilCompleteDefault, pollUntilComplete] using key
  · intro fetch ma ivl h
    have key := pollAux_all_pending fetch ma ma 0 (fun j hj => by simpa using h j hj)
    simpa [pollUntilComplete] using key

/-- Witness: the C1 theorem applied to a concrete `[Pending, Pending, Ready]`
oracle and to a concrete all-`Pending` oracle with `maxAttempts = 2`. -/
theorem pollUntilComplete_terminal_and_timeout_check :
    pollUntilCompleteDefault
        (fun i => if i < 2 then Except.ok ⟨"w1", Status.Pending, none, none⟩
          else Except.ok ⟨"w1", Status.Ready, some ⟨"https://example/img.png"⟩, none⟩) =
      ⟨Except.ok ⟨"w1", Status.Ready, some ⟨"https://example/img.png"⟩, none⟩, 3, 2⟩ ∧
    pollUntilComplete (fun _ => Except.ok ⟨"w1", Status.Pending, none, none⟩) 2 2000 =
      ⟨Except.error (BFLError.pollingTimeout 2), 2, 2⟩ :=
  ⟨pollUntilComplete_terminal_and_timeout.1 _ _ _ _ rfl rfl rfl rfl rfl rfl,
   pollUntilComplete_terminal_and_timeout.2 _ 2 2000
     (fun _ _ => ⟨⟨"w1", Status.Pending, none, none⟩, rfl, rfl⟩)⟩

/-- C8: if the first `k` status fetches of a polling run are `Pending`
successes and the k-th fetch fails (thrown non-2xx or network error), that
error propagates immediately out of `pollUntilComplete`: the run ends with
that error after exactly `k + 1` fetches (the failed fetch is performed once
and never retried) and the remaining attempts are aborted. -/
theorem pollUntilComplete_fetch_error_aborts :
    ∀ (fetch : Nat → Except BFLError ResultResponse) (ma ivl k : Nat) (e : BFLError),
      k < ma →
      (∀ j, j < k → ∃ r, fetch j = Except.ok r ∧ r.status = Status.Pending) →
      fetch k = Except.error e →
      pollUntilComplete fetch ma ivl = ⟨Except.error e, k + 1, k⟩ := by
  intro fetch ma ivl k e hk hpre hf
  have key := pollAux_prefix_error fetch ma k 0 ma e hk
    (fun j hj => by simpa using hpre j hj)
    (by simpa using hf)
  simpa [pollUntilComplete] using key

/-- Witness: the C8 theorem applied to an oracle whose second fetch is a 500
provider response (as `getResult` turns it into a thrown error). -/
theorem pollUntilComplete_fetch_error_aborts_check :
    pollUntilComplete
        (fun i => if i = 0 then Except.ok ⟨"w8", Status.Pending, none, none⟩
          else getResult (FetchOutcome.response 500 "Internal Server Error" none)) 60 2000 =
      ⟨Except.error (BFLError.apiError 500 "Internal Server Error"), 2, 1⟩ := by
  apply pollUntilComplete_fetch_error_aborts _ 60 2000 1 _ (by decide)
  · intro j hj
    have hj0 : j = 0 := by omega
    subst hj0
    exact ⟨⟨"w8", Status.Pending, none, none⟩, rfl, rfl⟩
  · rfl

/-- C9: on an all-`Pending` status sequence, `pollUntilComplete` sleeps after
every non-terminal fetch including the final one, so a run that ends in
polling timeout performs exactly `maxAttempts` delays, not
`maxAttempts - 1`. -/
theorem pollUntilComplete_timeout_sleep_count :
    ∀ (fetch : Nat → Except BFLError ResultResponse) (ma ivl : Nat),
      (∀ i, i < ma → ∃ r, fetch i = Except.ok r ∧ r.status = Status.Pending) →
      (pollUntilComplete fetch ma ivl).sleeps = ma := by
  intro fetch ma ivl h
  have key := pollAux_all_pending fetch ma ma 0 (fun j hj => by simpa using h j hj)
  simp [pollUntilComplete, key]

/-- Witness: the C9 theorem applied to a concrete all-`Pending` oracle with a
three-attempt budget: 3 sleeps, not 2. -/
theorem pollUntilComplete_timeout_sleep_count_check :
    (pollUntilComplete (fun _ => Except.ok ⟨"w9", Status.Pending, none, none⟩) 3 2000).sleeps
      = 3 :=
  pollUntilComplete_timeout_sleep_count _ 3 2000
    (fun _ _ => ⟨⟨"w9", Status.Pending, none, none⟩, rfl, rfl⟩)

/-- A registry entry whose recorded status is terminal (`Ready`). -/
def readyEntry : V0.RequestEntry :=
  ⟨"job-1", "flux-dev", "a red cube", "Ready", some "https://example/img.png", none, 0⟩

/-- A provider re-query response reporting `Pending` for the same job. -/
def pendingResp : ResultResponse := ⟨"job-1", Status.Pending, none, none⟩

/-- C2 (counterexample): a registry entry recorded `Ready` is driven back to
`Pending` by a single `get_request_status` call whose provider re-query
reports `Pending` — the handler copies the provider status unconditionally,
so the recorded status is not monotonic under arbitrary provider reports. -/
theorem get_request_status_terminal_regresses :
    readyEntry.status = "Ready" ∧
    ((V0.get_request_status [("job-1", readyEntry)] "job-1"
        (V0.FetchOutcome.response 200 "ok" pendingResp)).fst.lookup "job-1").map
      V0.RequestEntry.status = some "Pending" :=
  ⟨rfl, rfl⟩

/-- C2 (amended): a successful `get_request_status` fetch overwrites the
recorded entry with `updateEntry`, whose `status` field always equals the
provider-reported status.  A terminal recorded status therefore never reverts
to `Pending` exactly as long as the provider never reports `Pending` again
for that job; the handler itself enforces no monotonicity. -/
theorem get_request_status_tracks_provider :
    (∀ (registry : List (String × V0.RequestEntry)) (requestId : String)
        (e : V0.RequestEntry) (sc : Nat) (body : String) (r : ResultResponse),
      respOk sc = true → registry.lookup requestId = some e →
      ((V0.get_request_status registry requestId
          (V0.FetchOutcome.response sc body r)).fst.lookup requestId) =
        some (V0.updateEntry e r)) ∧
    (∀ (e : V0.RequestEntry) (r : ResultResponse),
      (V0.updateEntry e r).status = V0.statusStr r.status) := by
  constructor
  · intro registry requestId e sc body r hok h
    simp only [V0.get_request_status, V0.getResult, hok, if_true, h, Option.isSome_some]
    exact lookup_map_update requestId (fun v => V0.updateEntry v r) registry e h
  · intro e r
    cases hs : r.status <;> simp [V0.updateEntry, hs]

/-- Witness: the C2 amended theorem applied to the concrete regression
scenario. -/
theorem get_request_status_tracks_provider_check :
    ((V0.get_request_status [("job-1", readyEntry)] "job-1"
        (V0.FetchOutcome.response 200 "ok" pendingResp)).fst.lookup "job-1") =
      some (V0.updateEntry readyEntry pendingResp) :=
  get_request_status_tracks_provider.1 _ "job-1" readyEntry 200 "ok" pendingResp rfl rfl

/-- C3 (counterexample): a 2xx submit response whose body carries an `id` but
no `polling_url` does not succeed — `makeBFLRequest` fails with the Zod
schema error instead of synthesizing a polling endpoint from the base URL and
the id. -/
theorem makeBFLRequest_missing_polling_url_fails :
    makeBFLRequest (SubmitOutcome.response 200 "ok" ⟨some "req-123", none⟩) =
      Except.error BFLError.schemaError :=
  rfl

/-- C3 (amended): on a 2xx submit response, `makeBFLRequest` succeeds exactly
when the body carries both a string `id` and a string `polling_url`, and then
returns precisely those two fields; a body missing either field fails with
the schema error — no polling endpoint is synthesized. -/
theorem makeBFLRequest_requires_id_and_polling_url :
    ∀ (sc : Nat) (body i u : String), respOk sc = true →
      makeBFLRequest (SubmitOutcome.response sc body ⟨some i, some u⟩) =
          Except.ok ⟨i, u⟩ ∧
        makeBFLRequest (SubmitOutcome.response sc body ⟨some i, none⟩) =
          Except.error BFLError.schemaError ∧
        makeBFLRequest (SubmitOutcome.response sc body ⟨none, some u⟩) =
          Except.error BFLError.schemaError ∧
        makeBFLRequest (SubmitOutcome.response sc body ⟨none, none⟩) =
          Except.error BFLError.schemaError := by
  intro sc body i u hok
  refine ⟨?_, ?_, ?_, ?_⟩ <;>
    simp [makeBFLRequest, imageGenerationResponseParse, hok]

/-- Witness: the C3 amended theorem at a concrete 200 response. -/
theorem makeBFLRequest_requires_id_and_polling_url_check :
    makeBFLRequest (SubmitOutcome.response 200 "ok"
        ⟨some "req-123", some "https://api.bfl.ai/v1/get_result?id=req-123"⟩) =
      Except.ok ⟨"req-123", "https://api.bfl.ai/v1/get_result?id=req-123"⟩ :=
  (makeBFLRequest_requires_id_and_polling_url 200 "ok" "req-123"
    "https://api.bfl.ai/v1/get_result?id=req-123" rfl).1

/-- In every branch of `generate_image`, the submit attempt is recorded
exactly when the model resolves, with the resolved endpoint and the stripped
parameter object as its body. -/
lemma generate_image_submitted (env : GenEnv) (m : String) (w : Bool)
    (p : List (String × ParamValue)) :
    (generate_image env m w p).submitted =
      (MODEL_ENDPOINTS.lookup m).map fun ep => (ep, stripOrchestrationFields p) := by
  unfold generate_image
  cases hm : MODEL_ENDPOINTS.lookup m
  · rfl
  case some ep =>
    cases hs : makeBFLRequest env.submitOutcome
    · rfl
    case ok ir =>
      cases w
      · rfl
      · cases hp : (pollUntilCompleteDefault env.pollFetch).result
        · rfl
        case ok r =>
          by_cases hr : r.status = Status.Error
          · simp [hr]
          · simp [hr]

/-- C4: the five valid model selectors resolve through `MODEL_ENDPOINTS` to
exactly the fixed provider endpoint paths of the table; any other string
makes `generate_image` return the invalid-model text (which lists the valid
variants) with no submit attempted and no polling fetch performed; a valid
selector always submits to its resolved endpoint. -/
theorem generate_image_model_routing :
    (MODEL_ENDPOINTS.lookup "flux-dev" = some "/v1/flux-dev" ∧
     MODEL_ENDPOINTS.lookup "flux-pro" = some "/v1/flux-pro-1.1" ∧
     MODEL_ENDPOINTS.lookup "flux-pro-ultra" = some "/v1/flux-pro-1.1-ultra" ∧
     MODEL_ENDPOINTS.lookup "flux-kontext-pro" = some "/v1/flux-kontext-pro" ∧
     MODEL_ENDPOINTS.lookup "flux-kontext-max" = some "/v1/flux-kontext-max") ∧
    String.intercalate ", " (MODEL_ENDPOINTS.map Prod.fst) =
      "flux-dev, flux-pro, flux-pro-ultra, flux-kontext-pro, flux-kontext-max" ∧
    (∀ (env : GenEnv) (w : Bool) (p : List (String × ParamValue)) (m : String),
      MODEL_ENDPOINTS.lookup m = none →
      generate_image env m w p =
        ⟨Except.ok ⟨[ToolContent.text (invalidModelText m)]⟩, none, 0⟩) ∧
    (∀ (env : GenEnv) (w : Bool) (p : List (String × ParamValue)) (m ep : String),
      MODEL_ENDPOINTS.lookup m = some ep →
      ((generate_image env m w p).submitted).map Prod.fst = some ep) := by
  refine ⟨⟨rfl, rfl, rfl, rfl, rfl⟩, rfl, ?_, ?_⟩
  · intro env w p m hm
    unfold generate_image
    rw [hm]
  · intro env w p m ep hm
    rw [generate_image_submitted, hm]
    rfl

/-- Witness: the C4 theorem applied to the unknown selector `flux-schnell`
(no submit, no polling) and to the valid selector `flux-dev`. -/
theorem generate_image_model_routing_check :
    generate_image ⟨SubmitOutcome.networkError "offline", fun _ => Except.error
        (BFLError.networkError "offline")⟩ "flux-schnell" true [] =
      ⟨Except.ok ⟨[ToolContent.text (invalidModelText "flux-schnell")]⟩, none, 0⟩ ∧
    ((generate_image ⟨SubmitOutcome.networkError "offline", fun _ => Except.error
        (BFLError.networkError "offline")⟩ "flux-dev" true []).submitted).map Prod.fst =
      some "/v1/flux-dev" :=
  ⟨generate_image_model_routing.2.2.1 _ true [] "flux-schnell" rfl,
   generate_image_model_routing.2.2.2 _ true [] "flux-dev" "/v1/flux-dev" rfl⟩

/-- C7: the payload `generate_image` submits is the validated parameter
object with exactly the `model` and `wait` keys removed: every other key
maps to its unchanged original value, the two orchestration keys are absent,
no entry is added, and whenever a submit is attempted its body is exactly
this stripped object. -/
theorem generate_image_payload_forwarding :
    (∀ (params : List (String × ParamValue)) (k : String),
      k ≠ "model" → k ≠ "wait" →
      (stripOrchestrationFields params).lookup k = params.lookup k) ∧
    (∀ params : List (String × ParamValue),
      (stripOrchestrationFields params).lookup "model" = none ∧
      (stripOrchestrationFields params).lookup "wait" = none) ∧
    (∀ (params : List (String × ParamValue)) (kv : String × ParamValue),
      kv ∈ stripOrchestrationFields params → kv ∈ params) ∧
    (∀ (env : GenEnv) (m : String) (w : Bool) (p : List (String × ParamValue)),
      (generate_image env m w p).submitted =
        (MODEL_ENDPOINTS.lookup m).map fun ep => (ep, stripOrchestrationFields p)) := by
  refine ⟨?_, ?_, ?_, generate_image_submitted⟩
  · intro params k hm hw
    have hp : (k != "model" && k != "wait") = true := by
      simp [bne_iff_ne, hm, hw]
    exact lookup_filter_keep (fun s => s != "model" && s != "wait") k hp params
  · intro params
    constructor
    · exact lookup_filter_drop (fun s => s != "model" && s != "wait") "model" (by decide) params
    · exact lookup_filter_drop (fun s => s != "model" && s != "wait") "wait" (by decide) params
  · intro params kv hkv
    exact List.mem_of_mem_filter hkv

/-- Witness: the C7 theorem applied to a concrete validated parameter set:
`prompt` survives unchanged, `model` and `wait` are stripped. -/
theorem generate_image_payload_forwarding_check :
    (stripOrchestrationFields
        [("model", ParamValue.str "flux-dev"), ("prompt", ParamValue.str "a red cube"),
         ("wait", ParamValue.bool true)]).lookup "prompt" =
      [("model", ParamValue.str "flux-dev"), ("prompt", ParamValue.str "a red cube"),
        ("wait", ParamValue.bool true)].lookup "prompt" :=
  generate_image_payload_forwarding.1 _ "prompt" (by decide) (by decide)

/-- C5: tool handlers (`generate_image`, `download_image`) catch every error
and return a textual failure as a normal content block — their result is
`ok` for every environment, never a throw to the transport; resource
handlers (`bfl://requests/{id}`, `bfl://images/{id}`) propagate every error
as a protocol-level failure, never substituting text content:
`request_details_read` succeeds exactly when the underlying status fetch
does, and `image_read` fails whenever the status fetch fails, the fetched
status is not `Ready`, the status is `Ready` but no (truthy) sample URL is
present, the artifact transfer is a network error, or the artifact transfer
response is non-2xx. -/
theorem tool_failures_text_resource_failures_thrown :
    (∀ (env : GenEnv) (m : String) (w : Bool) (p : List (String × ParamValue)),
      exceptOk (generate_image env m w p).result = true) ∧
    (∀ (statusOut : FetchOutcome) (imgOut : ImageFetchOutcome) (rid fp : String),
      exceptOk (download_image statusOut imgOut rid fp).result = true) ∧
    (∀ (o : FetchOutcome) (uriHref : String),
      exceptOk (request_details_read o uriHref) = exceptOk (getResultById o)) ∧
    (∀ (statusOut : FetchOutcome) (imgOut : ImageFetchOutcome) (uriHref : String),
      exceptOk (getResultById statusOut) = false →
      exceptOk (image_read statusOut imgOut uriHref) = false) ∧
    (∀ (statusOut : FetchOutcome) (imgOut : ImageFetchOutcome) (uriHref : String)
        (r : ResultResponse),
      getResultById statusOut = Except.ok r → r.status ≠ Status.Ready →
      exceptOk (image_read statusOut imgOut uriHref) = false) ∧
    (∀ (statusOut : FetchOutcome) (imgOut : ImageFetchOutcome) (uriHref : String)
        (r : ResultResponse),
      getResultById statusOut = Except.ok r → r.status = Status.Ready →
      sampleUrl r = none →
      exceptOk (image_read statusOut imgOut uriHref) = false) ∧
    (∀ (statusOut : FetchOutcome) (uriHref m : String),
      exceptOk (image_read statusOut (ImageFetchOutcome.networkError m) uriHref) = false) ∧
    (∀ (statusOut : FetchOutcome) (uriHref st : String) (sc : Nat) (ct : Option String)
        (body : Option String),
      respOk sc = false →
      exceptOk (image_read statusOut (ImageFetchOutcome.response sc st ct body) uriHref) =
        false) := by
  refine ⟨?_, ?_, ?_, ?_, ?_, ?_, ?_, ?_⟩
  · intro env m w p
    unfold generate_image
    cases MODEL_ENDPOINTS.lookup m
    · rfl
    · cases makeBFLRequest env.submitOutcome
      · rfl
      · cases w
        · rfl
        · cases (pollUntilCompleteDefault env.pollFetch).result
          · rfl
          case ok r =>
            by_cases hr : r.status = Status.Error
            · simp [hr, exceptOk]
            · simp [hr, exceptOk]
  · intro statusOut imgOut rid fp
    unfold download_image
    cases getResultById statusOut
    case error e => rfl
    case ok r =>
      by_cases h1 : r.status = Status.Error
      · simp [h1, exceptOk]
      · by_cases h2 : r.status = Status.Pending
        · simp [h1, h2, exceptOk]
        · by_cases h3 : (sampleUrl r).isNone = true
          · simp [h1, h2, h3, exceptOk]
          · rcases imgOut with m | ⟨sc, st, ct, body⟩
            · simp [h1, h2, h3, exceptOk]
            · by_cases h4 : respOk sc = false
              · simp [h1, h2, h3, h4, exceptOk]
              · cases body <;> simp [h1, h2, h3, h4, exceptOk]
  · intro o uriHref
    cases h : getResultById o <;> simp [request_details_read, h, exceptOk]
  · intro statusOut imgOut uriHref h
    cases hs : getResultById statusOut
    case error e => simp [image_read, hs, exceptOk]
    case ok r => rw [hs] at h; simp [exceptOk] at h
  · intro statusOut imgOut uriHref r hs hr
    cases hst : r.status
    · simp [image_read, hs, hst, exceptOk]
    · exact absurd hst hr
    · simp [image_read, hs, hst, exceptOk]
  · intro statusOut imgOut uriHref r hs hst hu
    simp [image_read, hs, hst, hu, exceptOk]
  · intro statusOut uriHref m
    cases hs : getResultById statusOut
    case error e => simp [image_read, hs, exceptOk]
    case ok r =>
      cases hst : r.status
      · simp [image_read, hs, hst, exceptOk]
      · cases hu : sampleUrl r
        · simp [image_read, hs, hst, hu, exceptOk]
        · simp [image_read, hs, hst, hu, exceptOk]
      · simp [image_read, hs, hst, exceptOk]
  · intro statusOut uriHref st sc ct body hsc
    cases hs : getResultById statusOut
    case error e => simp [image_read, hs, exceptOk]
    case ok r =>
      cases hst : r.status
      · simp [image_read, hs, hst, exceptOk]
      · cases hu : sampleUrl r
        · simp [image_read, hs, hst, hu, exceptOk]
        · simp [image_read, hs, hst, hu, hsc, exceptOk]
      · simp [image_read, hs, hst, exceptOk]

/-- Witness: the C5 theorem at concrete environments — a failed status fetch,
a non-`Ready` status, a `Ready` status with no sample URL, a transfer
network error, and a 403 transfer response all make the `bfl://images/{id}`
resource read fail (no text substitution). -/
theorem tool_failures_text_resource_failures_thrown_check :
    exceptOk (image_read (FetchOutcome.networkError "connection reset")
        (ImageFetchOutcome.networkError "unused") "bfl://images/j1") = false ∧
    exceptOk (image_read (FetchOutcome.response 200 "ok"
          (some ⟨"j1", Status.Pending, none, none⟩))
        (ImageFetchOutcome.networkError "unused") "bfl://images/j1") = false ∧
    exceptOk (image_read (FetchOutcome.response 200 "ok"
          (some ⟨"j1", Status.Ready, none, none⟩))
        (ImageFetchOutcome.networkError "unused") "bfl://images/j1") = false ∧
    exceptOk (image_read (FetchOutcome.response 200 "ok"
          (some ⟨"j1", Status.Ready, some ⟨"https://example/img.png"⟩, none⟩))
        (ImageFetchOutcome.networkError "connection reset") "bfl://images/j1") = false ∧
    exceptOk (image_read (FetchOutcome.response 200 "ok"
          (some ⟨"j1", Status.Ready, some ⟨"https://example/img.png"⟩, none⟩))
        (ImageFetchOutcome.response 403 "Forbidden" none none) "bfl://images/j1") = false :=
  ⟨tool_failures_text_resource_failures_thrown.2.2.2.1 _
      (ImageFetchOutcome.networkError "unused") "bfl://images/j1" rfl,
   tool_failures_text_resource_failures_thrown.2.2.2.2.1 _
      (ImageFetchOutcome.networkError "unused") "bfl://images/j1"
      ⟨"j1", Status.Pending, none, none⟩ rfl (by decide),
   tool_failures_text_resource_failures_thrown.2.2.2.2.2.1
      (FetchOutcome.response 200 "ok" (some ⟨"j1", Status.Ready, none, none⟩))
      (ImageFetchOutcome.networkError "unused") "bfl://images/j1"
      ⟨"j1", Status.Ready, none, none⟩ rfl rfl rfl,
   tool_failures_text_resource_failures_thrown.2.2.2.2.2.2.1
      (FetchOutcome.response 200 "ok"
        (some ⟨"j1", Status.Ready, some ⟨"https://example/img.png"⟩, none⟩))
      "bfl://images/j1" "connection reset",
   tool_failures_text_resource_failures_thrown.2.2.2.2.2.2.2
      (FetchOutcome.response 200 "ok"
        (some ⟨"j1", Status.Ready, some ⟨"https://example/img.png"⟩, none⟩))
      "bfl://images/j1" "Forbidden" 403 none none rfl⟩

/-- C6: `download_image` gated on the fetched status: `Pending` yields the
not-ready text with no artifact transfer; `Error` yields the
generation-failed text carrying the error detail, with no transfer; `Ready`
without a (truthy) sample URL yields the missing-artifact text with no
transfer; the artifact transfer happens exactly when the status is `Ready`
with a sample URL, and on a successful transfer response with a body the
bytes are written to the destination path; a write happens only in the
`Ready`-with-URL case. -/
theorem download_image_status_gating :
    ∀ (statusOut : FetchOutcome) (imgOut : ImageFetchOutcome) (rid fp : String)
      (r : ResultResponse),
      getResultById statusOut = Except.ok r →
      ((r.status = Status.Pending → download_image statusOut imgOut rid fp =
          ⟨Except.ok ⟨[ToolContent.text
              "Image generation is still pending. Please wait for it to complete."]⟩,
            false, none⟩) ∧
       (r.status = Status.Error → download_image statusOut imgOut rid fp =
          ⟨Except.ok ⟨[ToolContent.text (generationFailedText r.error)]⟩, false, none⟩) ∧
       (r.status = Status.Ready → sampleUrl r = none →
          download_image statusOut imgOut rid fp =
            ⟨Except.ok ⟨[ToolContent.text "No image URL found in result"]⟩, false, none⟩) ∧
       ((download_image statusOut imgOut rid fp).imageFetched = true ↔
          r.status = Status.Ready ∧ (sampleUrl r).isSome = true) ∧
       (∀ (sc : Nat) (st : String) (ct : Option String) (bytes : String),
          r.status = Status.Ready → (sampleUrl r).isSome = true →
          imgOut = ImageFetchOutcome.response sc st ct (some bytes) → respOk sc = true →
          download_image statusOut imgOut rid fp =
            ⟨Except.ok ⟨[ToolContent.text ("Image downloaded successfully to " ++ fp)]⟩,
              true, some (fp, bytes)⟩) ∧
       ((download_image statusOut imgOut rid fp).wrote.isSome = true →
          r.status = Status.Ready ∧ (sampleUrl r).isSome = true)) := by
  intro statusOut imgOut rid fp r hs
  refine ⟨?_, ?_, ?_, ?_, ?_, ?_⟩
  · intro hp
    simp [download_image, hs, hp]
  · intro hp
    simp [download_image, hs, hp]
  · intro hp hu
    simp [download_image, hs, hp, hu]
  · cases hst : r.status
    · simp [download_image, hs, hst]
    · cases hu : sampleUrl r
      · simp [download_image, hs, hst, hu]
      · rcases imgOut with m | ⟨sc, st, ct, body⟩
        · simp [download_image, hs, hst, hu]
        · by_cases hsc : respOk sc = false
          · simp [download_image, hs, hst, hu, hsc]
          · cases body <;> simp [download_image, hs, hst, hu, hsc]
    · simp [download_image, hs, hst]
  · intro sc st ct bytes h1 h2 himg hsc
    subst himg
    obtain ⟨u, hu⟩ := Option.isSome_iff_exists.mp h2
    simp [download_image, hs, h1, hu, hsc]
  · intro hw
    cases hst : r.status
    · rw [show (download_image statusOut imgOut rid fp).wrote = none by
        simp [download_image, hs, hst]] at hw
      cases hw
    · cases hu : sampleUrl r
      · rw [show (download_image statusOut imgOut rid fp).wrote = none by
          simp [download_image, hs, hst, hu]] at hw
        cases hw
      · exact ⟨rfl, by simp [hu]⟩
    · rw [show (download_image statusOut imgOut rid fp).wrote = none by
        simp [download_image, hs, hst]] at hw
      cases hw

/-- Witness: the C6 theorem at a concrete `Pending` fetch and a concrete
successful `Ready` download. -/
theorem download_image_status_gating_check :
    download_image (FetchOutcome.response 200 "ok"
        (some ⟨"j1", Status.Pending, none, none⟩))
      (ImageFetchOutcome.networkError "unused") "j1" "/tmp/out.png" =
      ⟨Except.ok ⟨[ToolContent.text
          "Image generation is still pending. Please wait for it to complete."]⟩,
        false, none⟩ ∧
    download_image (FetchOutcome.response 200 "ok"
        (some ⟨"j1", Status.Ready, some ⟨"https://example/img.png"⟩, none⟩))
      (ImageFetchOutcome.response 200 "OK" (some "image/png") (some "PNGBYTES"))
      "j1" "/tmp/out.png" =
      ⟨Except.ok ⟨[ToolContent.text "Image downloaded successfully to /tmp/out.png"]⟩,
        true, some ("/tmp/out.png", "PNGBYTES")⟩ :=
  ⟨(download_image_status_gating
      (FetchOutcome.response 200 "ok" (some ⟨"j1", Status.Pending, none, none⟩))
      (ImageFetchOutcome.networkError "unused") "j1" "/tmp/out.png"
      ⟨"j1", Status.Pending, none, none⟩ rfl).1 rfl,
   (download_image_status_gating
      (FetchOutcome.response 200 "ok"
        (some ⟨"j1", Status.Ready, some ⟨"https://example/img.png"⟩, none⟩))
      (ImageFetchOutcome.response 200 "OK" (some "image/png") (some "PNGBYTES"))
      "j1" "/tmp/out.png"
      ⟨"j1", Status.Ready, some ⟨"https://example/img.png"⟩, none⟩ rfl).2.2.2.2.1
     200 "OK" (some "image/png") "PNGBYTES" rfl (by decide) rfl rfl⟩

/-- C10: in the earlier per-model tools, the conditional spreads drop
`aspect_ratio`, `width`, `height` and `num_images` from the submission
payload whenever the value is falsy — zero numbers and the empty string are
silently omitted (while truthy values are kept) — whereas
`safety_tolerance` is included whenever it is defined, the value 0
included.  Shown for the `flux_dev` body (the `flux_pro` handler builds the
identical object) and for the `flux_pro_ultra` body. -/
theorem flux_tools_falsy_optional_fields :
    (∀ (p : String) (ar : Option String) (ht ni st : Option Int),
      (V0.fluxDevRequestBody ⟨p, ar, some 0, ht, ni, st⟩).lookup "width" = none) ∧
    (∀ (p : String) (ar : Option String) (wd ni st : Option Int),
      (V0.fluxDevRequestBody ⟨p, ar, wd, some 0, ni, st⟩).lookup "height" = none) ∧
    (∀ (p : String) (ar : Option String) (wd ht st : Option Int),
      (V0.fluxDevRequestBody ⟨p, ar, wd, ht, some 0, st⟩).lookup "num_images" = none) ∧
    (∀ (p : String) (wd ht ni st : Option Int),
      (V0.fluxDevRequestBody ⟨p, some "", wd, ht, ni, st⟩).lookup "aspect_ratio" = none) ∧
    (∀ (p : String) (ar : Option String) (wd ht ni : Option Int),
      (V0.fluxDevRequestBody ⟨p, ar, wd, ht, ni, some 0⟩).lookup "safety_tolerance" =
        some (ParamValue.num 0)) ∧
    (∀ (p : String) (ar : Option String) (wd ht st : Option Int) (n : Int), ¬ n = 0 →
      (V0.fluxDevRequestBody ⟨p, ar, wd, ht, some n, st⟩).lookup "num_images" =
        some (ParamValue.num n)) ∧
    (∀ (p : String) (ar : Option String) (ht st : Option Int),
      (V0.fluxProUltraRequestBody ⟨p, ar, some 0, ht, st⟩).lookup "width" = none) ∧
    (∀ (p : String) (ar : Option String) (wd ht : Option Int),
      (V0.fluxProUltraRequestBody ⟨p, ar, wd, ht, some 0⟩).lookup "safety_tolerance" =
        some (ParamValue.num 0)) := by
  refine ⟨?_, ?_, ?_, ?_, ?_, ?_, ?_, ?_⟩
  · intro p ar ht ni st
    simp only [V0.fluxDevRequestBody, List.append_assoc]
    rw [skip_promptHead "width" (by decide) p,
      skip_truthyStrField "width" "aspect_ratio" (by decide) ar,
      show V0.truthyNumField "width" (some 0) = [] from rfl, List.nil_append,
      skip_truthyNumField "width" "height" (by decide) ht,
      skip_truthyNumField "width" "num_images" (by decide) ni,
      lookup_definedNumField_ne "width" "safety_tolerance" (by decide) st]
  · intro p ar wd ni st
    simp only [V0.fluxDevRequestBody, List.append_assoc]
    rw [skip_promptHead "height" (by decide) p,
      skip_truthyStrField "height" "aspect_ratio" (by decide) ar,
      skip_truthyNumField "height" "width" (by decide) wd,
      show V0.truthyNumField "height" (some 0) = [] from rfl, List.nil_append,
      skip_truthyNumField "height" "num_images" (by decide) ni,
      lookup_definedNumField_ne "height" "safety_tolerance" (by decide) st]
  · intro p ar wd ht st
    simp only [V0.fluxDevRequestBody, List.append_assoc]
    rw [skip_promptHead "num_images" (by decide) p,
      skip_truthyStrField "num_images" "aspect_ratio" (by decide) ar,
      skip_truthyNumField "num_images" "width" (by decide) wd,
      skip_truthyNumField "num_images" "height" (by decide) ht,
      show V0.truthyNumField "num_images" (some 0) = [] from rfl, List.nil_append,
      lookup_definedNumField_ne "num_images" "safety_tolerance" (by decide) st]
  · intro p wd ht ni st
    simp only [V0.fluxDevRequestBody, List.append_assoc]
    rw [skip_promptHead "aspect_ratio" (by decide) p,
      show V0.truthyStrField "aspect_ratio" (some "") = [] from rfl, List.nil_append,
      skip_truthyNumField "aspect_ratio" "width" (by decide) wd,
      skip_truthyNumField "aspect_ratio" "height" (by decide) ht,
      skip_truthyNumField "aspect_ratio" "num_images" (by decide) ni,
      lookup_definedNumField_ne "aspect_ratio" "safety_tolerance" (by decide) st]
  · intro p ar wd ht ni
    simp only [V0.fluxDevRequestBody, List.append_assoc]
    rw [skip_promptHead "safety_tolerance" (by decide) p,
      skip_truthyStrField "safety_tolerance" "aspect_ratio" (by decide) ar,
      skip_truthyNumField "safety_tolerance" "width" (by decide) wd,
      skip_truthyNumField "safety_tolerance" "height" (by decide) ht,
      skip_truthyNumField "safety_tolerance" "num_images" (by decide) ni]
    rfl
  · intro p ar wd ht st n hn
    have hb : (n != 0) = true := by simpa [bne_iff_ne] using hn
    simp only [V0.fluxDevRequestBody, List.append_assoc]
    rw [skip_promptHead "num_images" (by decide) p,
      skip_truthyStrField "num_images" "aspect_ratio" (by decide) ar,
      skip_truthyNumField "num_images" "width" (by decide) wd,
      skip_truthyNumField "num_images" "height" (by decide) ht]
    simp only [V0.truthyNumField, hb, if_true]
    simp [List.lookup_cons]
  · intro p ar ht st
    simp only [V0.fluxProUltraRequestBody, List.append_assoc]
    rw [skip_promptHead "width" (by decide) p,
      skip_truthyStrField "width" "aspect_ratio" (by decide) ar,
      show V0.truthyNumField "width" (some 0) = [] from rfl, List.nil_append,
      skip_truthyNumField "width" "height" (by decide) ht,
      lookup_definedNumField_ne "width" "safety_tolerance" (by decide) st]
  · intro p ar wd ht
    simp only [V0.fluxProUltraRequestBody, List.append_assoc]
    rw [skip_promptHead "safety_tolerance" (by decide) p,
      skip_truthyStrField "safety_tolerance" "aspect_ratio" (by decide) ar,
      skip_truthyNumField "safety_tolerance" "width" (by decide) wd,
      skip_truthyNumField "safety_tolerance" "height" (by decide) ht]
    rfl

/-- Witness: the C10 theorem at a concrete argument set — `width = 0` is
dropped, `safety_tolerance = 0` is kept, `num_images = 2` is kept. -/
theorem flux_tools_falsy_optional_fields_check :
    (V0.fluxDevRequestBody
        ⟨"a red cube", some "1:1", some 0, some 768, some 2, some 0⟩).lookup "width" = none ∧
    (V0.fluxDevRequestBody
        ⟨"a red cube", some "1:1", some 0, some 768, some 2, some 0⟩).lookup
      "safety_tolerance" = some (ParamValue.num 0) ∧
    (V0.fluxDevRequestBody
        ⟨"a red cube", some "1:1", some 0, some 768, some 2, some 0⟩).lookup "num_images" =
      some (ParamValue.num 2) :=
  ⟨flux_tools_falsy_optional_fields.1 "a red cube" (some "1:1") (some 768) (some 2) (some 0),
   flux_tools_falsy_optional_fields.2.2.2.2.1 "a red cube" (some "1:1") (some 0) (some 768)
     (some 2),
   flux_tools_falsy_optional_fields.2.2.2.2.2.1 "a red cube" (some "1:1") (some 0) (some 768)
     (some 0) 2 (by decide)⟩
